import Mathlib

/-!
Verification development for the ComChat repository.

The repository's channel adapters (Telegram bot, WhatsApp Business webhook
server) and the web chat client are embedded shallowly below, straight from
`messaging-adapters/telegram/src/index.ts`,
`messaging-adapters/whatsapp/src/index.ts`,
`frontend/src/services/chatService.ts` and
`frontend/src/components/chat/ChatInterface.tsx`.

Node's `crypto` primitives used by the WhatsApp adapter
(`createHmac('sha256', …).update(…).digest('hex')`, `Buffer.from(…, 'hex')`,
`crypto.timingSafeEqual`) are embedded as executable Lean functions with the
semantics of the Node standard library (SHA-256 per FIPS 180-4).
-/

namespace ComChat

namespace NodeCrypto

/-- Truncation to a 32-bit word. -/
def w32 (x : Nat) : Nat := x % 4294967296

/-- 32-bit right rotation (`ROTR^n` of FIPS 180-4). -/
def rotr32 (n x : Nat) : Nat := w32 ((x >>> n) ||| (x <<< (32 - n)))

/-- 32-bit bitwise complement. -/
def bnot32 (x : Nat) : Nat := x ^^^ 4294967295

/-- SHA-256 choice function. -/
def ch (x y z : Nat) : Nat := (x &&& y) ^^^ (bnot32 x &&& z)

/-- SHA-256 majority function. -/
def maj (x y z : Nat) : Nat := (x &&& y) ^^^ (x &&& z) ^^^ (y &&& z)

/-- SHA-256 big sigma 0. -/
def bsig0 (x : Nat) : Nat := rotr32 2 x ^^^ rotr32 13 x ^^^ rotr32 22 x

/-- SHA-256 big sigma 1. -/
def bsig1 (x : Nat) : Nat := rotr32 6 x ^^^ rotr32 11 x ^^^ rotr32 25 x

/-- SHA-256 small sigma 0. -/
def ssig0 (x : Nat) : Nat := rotr32 7 x ^^^ rotr32 18 x ^^^ (x >>> 3)

/-- SHA-256 small sigma 1. -/
def ssig1 (x : Nat) : Nat := rotr32 17 x ^^^ rotr32 19 x ^^^ (x >>> 10)

/-- The 64 SHA-256 round constants (in decimal). -/
def sha256K : List Nat :=
  [1116352408, 1899447441, 3049323471, 3921009573, 961987163, 1508970993,
   2453635748, 2870763221, 3624381080, 310598401, 607225278, 1426881987,
   1925078388, 2162078206, 2614888103, 3248222580, 3835390401, 4022224774,
   264347078, 604807628, 770255983, 1249150122, 1555081692, 1996064986,
   2554220882, 2821834349, 2952996808, 3210313671, 3336571891, 3584528711,
   113926993, 338241895, 666307205, 773529912, 1294757372, 1396182291,
   1695183700, 1986661051, 2177026350, 2456956037, 2730485921, 2820302411,
   3259730800, 3345764771, 3516065817, 3600352804, 4094571909, 275423344,
   430227734, 506948616, 659060556, 883997877, 958139571, 1322822218,
   1537002063, 1747873779, 1955562222, 2024104815, 2227730452, 2361852424,
   2428436474, 2756734187, 3204031479, 3329325298]

/-- The SHA-256 initial hash value (in decimal). -/
def sha256H0 : List Nat :=
  [1779033703, 3144134277, 1013904242, 2773480762,
   1359893119, 2600822924, 528734635, 1541459225]

/-- Big-endian 4-byte encoding of a 32-bit word. -/
def be32 (x : Nat) : List Nat :=
  [(x >>> 24) &&& 255, (x >>> 16) &&& 255, (x >>> 8) &&& 255, x &&& 255]

/-- Big-endian 8-byte encoding of a 64-bit value. -/
def be64 (x : Nat) : List Nat := be32 (x >>> 32) ++ be32 x

/-- Group a byte list into big-endian 32-bit words (trailing partial group dropped;
inputs here are always multiples of 4). -/
def toWords : List Nat → List Nat
  | a :: b :: c :: d :: rest => ((a <<< 24) ||| (b <<< 16) ||| (c <<< 8) ||| d) :: toWords rest
  | _ => []

/-- Extend the 16 words of a block to the 64-entry SHA-256 message schedule. -/
def extendSchedule (w16 : Array Nat) : Array Nat :=
  (List.range 48).foldl
    (fun a _ =>
      a.push (w32 (ssig1 (a.get! (a.size - 2)) + a.get! (a.size - 7) +
        ssig0 (a.get! (a.size - 15)) + a.get! (a.size - 16))))
    w16

/-- One SHA-256 compression-function round. -/
def sha256Round (w : Array Nat) (st : Array Nat) (i : Nat) : Array Nat :=
  let a := st.get! 0
  let b := st.get! 1
  let c := st.get! 2
  let d := st.get! 3
  let e := st.get! 4
  let f := st.get! 5
  let g := st.get! 6
  let hh := st.get! 7
  let t1 := w32 (hh + bsig1 e + ch e f g + sha256K.get! i + w.get! i)
  let t2 := w32 (bsig0 a + maj a b c)
  #[w32 (t1 + t2), a, b, c, w32 (d + t1), e, f, g]

/-- The SHA-256 compression function on one 64-byte block. -/
def compressBlock (h : Array Nat) (block : List Nat) : Array Nat :=
  let w := extendSchedule (Array.mk (toWords block))
  let st := (List.range 64).foldl (sha256Round w) h
  #[w32 (h.get! 0 + st.get! 0), w32 (h.get! 1 + st.get! 1),
    w32 (h.get! 2 + st.get! 2), w32 (h.get! 3 + st.get! 3),
    w32 (h.get! 4 + st.get! 4), w32 (h.get! 5 + st.get! 5),
    w32 (h.get! 6 + st.get! 6), w32 (h.get! 7 + st.get! 7)]

/-- SHA-256 padding: append 0x80, zeros, and the 64-bit big-endian bit length. -/
def padMsg (msg : List Nat) : List Nat :=
  let len := msg.length
  let zeros := (64 - ((len + 9) % 64)) % 64
  msg ++ 0x80 :: (List.replicate zeros 0 ++ be64 (8 * len))

/-- Split a byte list into consecutive 64-byte blocks (fuel-indexed; the fuel
`l.length` always suffices since every step consumes at least one byte). -/
def chunksAux : Nat → List Nat → List (List Nat)
  | 0, _ => []
  | _, [] => []
  | n + 1, l => l.take 64 :: chunksAux n (l.drop 64)

/-- Split a byte list into consecutive 64-byte blocks. -/
def chunks64 (l : List Nat) : List (List Nat) := chunksAux l.length l

/-- SHA-256 of a byte list, as 32 bytes. -/
def sha256Bytes (msg : List Nat) : List Nat :=
  let hs := (chunks64 (padMsg msg)).foldl compressBlock (Array.mk sha256H0)
  (hs.toList.map be32).flatten

/-- HMAC-SHA-256 (RFC 2104) of a message under a key, as 32 bytes. -/
def hmacSha256Bytes (key msg : List Nat) : List Nat :=
  let k1 := if 64 < key.length then sha256Bytes key else key
  let k0 := k1 ++ List.replicate (64 - k1.length) 0
  let ipadKey := k0.map (fun b => b ^^^ 0x36)
  let opadKey := k0.map (fun b => b ^^^ 0x5c)
  sha256Bytes (opadKey ++ sha256Bytes (ipadKey ++ msg))

/-- Lowercase hex digit for a value below 16 (as `digest('hex')` produces). -/
def hexChar (n : Nat) : Char := if n < 10 then Char.ofNat (48 + n) else Char.ofNat (87 + n)

/-- One byte as two lowercase hex digits. -/
def byteToHex (b : Nat) : List Char := [hexChar (b / 16), hexChar (b % 16)]

/-- Lowercase hex encoding of a byte list. -/
def bytesToHex (bs : List Nat) : String := String.mk (bs.map byteToHex).flatten

/-- UTF-8 encoding of one character. -/
def charUtf8 (c : Char) : List Nat :=
  let n := c.toNat
  if n < 0x80 then [n]
  else if n < 0x800 then [0xc0 ||| (n >>> 6), 0x80 ||| (n &&& 63)]
  else if n < 0x10000 then
    [0xe0 ||| (n >>> 12), 0x80 ||| ((n >>> 6) &&& 63), 0x80 ||| (n &&& 63)]
  else
    [0xf0 ||| (n >>> 18), 0x80 ||| ((n >>> 12) &&& 63),
     0x80 ||| ((n >>> 6) &&& 63), 0x80 ||| (n &&& 63)]

/-- UTF-8 bytes of a string (Node strings are hashed in their UTF-8 encoding). -/
def strBytes (s : String) : List Nat := (s.data.map charUtf8).flatten

/-- Node's `createHmac('sha256', key).update(msg).digest('hex')`. -/
def hmacSha256Hex (key msg : String) : String :=
  bytesToHex (hmacSha256Bytes (strBytes key) (strBytes msg))

/-- Value of a hex digit character, `none` for a non-hex character. -/
def hexVal (c : Char) : Option Nat :=
  if 48 ≤ c.toNat ∧ c.toNat ≤ 57 then some (c.toNat - 48)
  else if 97 ≤ c.toNat ∧ c.toNat ≤ 102 then some (c.toNat - 87)
  else if 65 ≤ c.toNat ∧ c.toNat ≤ 70 then some (c.toNat - 55)
  else none

/-- Decode leading hex-digit pairs; stop at the first invalid character or odd
trailing digit, as Node's `Buffer.from(s, 'hex')` does. -/
def hexDecodeAux : List Char → List Nat
  | c1 :: c2 :: rest =>
    match hexVal c1, hexVal c2 with
    | some a, some b => (16 * a + b) :: hexDecodeAux rest
    | _, _ => []
  | _ => []

/-- Node's `Buffer.from(s, 'hex')`, as the list of decoded bytes. -/
def bufferFromHex (s : String) : List Nat := hexDecodeAux s.data

/-- Node's `crypto.timingSafeEqual`: throws (`.error`) when the two buffers have
different byte lengths, otherwise compares them. -/
def timingSafeEqual (a b : List Nat) : Except Unit Bool :=
  if a.length = b.length then .ok (a == b) else .error ()

/-- JavaScript's `s.replace(pat, '')` for a string pattern: remove the first
occurrence only. -/
def replaceFirstAux (pat : List Char) : List Char → List Char
  | [] => []
  | c :: cs =>
    if pat.isPrefixOf (c :: cs) then (c :: cs).drop pat.length
    else c :: replaceFirstAux pat cs

/-- JavaScript's `s.replace(pat, '')` (first occurrence removed). -/
def jsReplaceFirst (s pat : String) : String := String.mk (replaceFirstAux pat.data s.data)

/-- JavaScript's `s.startsWith(pre)`. -/
def jsStartsWith (s pre : String) : Bool := pre.data.isPrefixOf s.data

/-- A whitespace character as JavaScript's `trim` strips it (the ASCII cases). -/
def jsWhitespace (c : Char) : Bool := c == ' ' || c == '\t' || c == '\n' || c == '\r'

/-- JavaScript's `s.trim()`: strip leading and trailing whitespace. -/
def jsTrim (s : String) : String :=
  String.mk (((s.data.dropWhile jsWhitespace).reverse.dropWhile jsWhitespace).reverse)

end NodeCrypto

namespace Whatsapp

open NodeCrypto

/-- The adapter's tenant slug (`TENANT_SLUG`, defaulting to `'demo'`). -/
def TENANT_SLUG : String := "demo"

/-- `verifyWebhookSignature(payload, signature)` from
`messaging-adapters/whatsapp/src/index.ts`. `payloadJson` is
`JSON.stringify(payload)`; a missing or empty signature header is the falsy
`!signature` case. The result is `.error ()` when `crypto.timingSafeEqual`
throws on buffers of different byte length. -/
def verifyWebhookSignature (secret : String) (payloadJson : String)
    (signatureHeader : Option String) : Except Unit Bool :=
  let sig := signatureHeader.getD ""
  if secret = "" ∨ sig = "" then .ok false
  else
    let expectedSignature := hmacSha256Hex secret payloadJson
    let receivedSignature := jsReplaceFirst sig "sha256="
    timingSafeEqual (bufferFromHex expectedSignature) (bufferFromHex receivedSignature)

/-- Outcome of the signature gate at the top of the `POST /webhook` handler:
`accepted` means the handler goes on to process the body (ending in 200 unless
later processing throws), `unauthorized` is the 401 response, `serverError` is
the 500 response produced by the handler's `catch` when the verification call
throws. -/
inductive WebhookGate
  | accepted
  | unauthorized
  | serverError
deriving DecidableEq, Repr

/-- The signature gate of `app.post('/webhook')`:
`if (WEBHOOK_SECRET && !verifyWebhookSignature(req.body, req.headers[...]))
return res.status(401)`, with a thrown verification error caught by the
handler's `catch` into a 500. `secret` is `WEBHOOK_SECRET` (`none` when the
environment variable is unset; the empty string is equally falsy). -/
def webhookPost (secret : Option String) (bodyJson : String)
    (signatureHeader : Option String) : WebhookGate :=
  let sec := secret.getD ""
  if sec = "" then .accepted
  else
    match verifyWebhookSignature sec bodyJson signatureHeader with
    | .ok true => .accepted
    | .ok false => .unauthorized
    | .error _ => .serverError

/-- The type-specific part of a WhatsApp message (`message.type` switch). -/
inductive WaContent
  | text (body : String)
  | image (caption : Option String) (mediaId : String)
  | audio (mediaId : String)
  | video (caption : Option String) (mediaId : String)
  | document (filename : Option String) (mediaId : String)
  | other (typeName : String)
deriving DecidableEq, Repr

/-- One entry of `messageData.messages`: `message.from`, `message.id` and the
typed content. -/
structure WaMessage where
  msgFrom : String
  msgId : String
  content : WaContent
deriving DecidableEq, Repr

/-- The `switch (message.type)` of `handleIncomingMessage`, computing
`(messageContent, mediaUrl, mediaType)`. `download` models
`downloadWhatsAppMedia`, which returns the media URL or `''` on its own
(internally caught) failure. -/
def waMessageContent (download : String → String) : WaContent → String × String × String
  | .text body => (body, "", "")
  | .image caption mediaId => (caption.getD "Image shared", download mediaId, "image/jpeg")
  | .audio mediaId => ("Audio message received", download mediaId, "audio/ogg")
  | .video caption mediaId => (caption.getD "Video shared", download mediaId, "video/mp4")
  | .document filename mediaId =>
      ("Document shared: " ++ filename.getD "file", download mediaId, "application/octet-stream")
  | .other typeName => ("Unsupported message type: " ++ typeName, "", "")

/-- `contact?.profile?.name || 'Unknown'` over `contacts` (pairs of `wa_id` and
optional profile name; the empty string is falsy and also yields `'Unknown'`). -/
def waContactName (contacts : List (String × Option String)) (waId : String) : String :=
  match (contacts.find? (fun c => c.1 = waId)).bind Prod.snd with
  | some n => if n = "" then "Unknown" else n
  | none => "Unknown"

/-- The body the WhatsApp adapter posts to `${BACKEND_URL}/api/v1/chat/send`.
Optional fields carry `none` where the source passes `undefined`
(`mediaUrl || undefined`), which axios omits from the serialized JSON. -/
structure WaRequest where
  message : String
  channel : String
  channel_user_id : String
  tenant_slug : String
  media_url : Option String
  media_type : Option String
  channel_message_id : String
  user_name : String
deriving DecidableEq, Repr

/-- The JSON keys present in a serialized `WaRequest`, in the order of the
object literal (keys with `undefined` values are absent). -/
def waPostedKeys (r : WaRequest) : List String :=
  ["message", "channel", "channel_user_id", "tenant_slug"]
    ++ (if r.media_url.isSome then ["media_url"] else [])
    ++ (if r.media_type.isSome then ["media_type"] else [])
    ++ ["channel_message_id", "user_name"]

/-- `response.data` of the core's reply as the adapter reads it. -/
structure WaBackendData where
  response : String
deriving DecidableEq, Repr

/-- One outbound WhatsApp send: `sendWhatsAppMessage(to, message)`. -/
structure WaSend where
  sendTo : String
  text : String
deriving DecidableEq, Repr

/-- Result of processing one entry of `messages` inside
`handleIncomingMessage`: the request posted to the core (if the code reached
the post) and the sends attempted back to the user. -/
structure WaStep where
  request : Option WaRequest
  sends : List WaSend
deriving DecidableEq, Repr

/-- The fixed apology of the message loop's `catch` in `handleIncomingMessage`. -/
def waErrorText : String := "Sorry, I encountered an error. Please try again."

/-- The per-message body of `handleIncomingMessage`'s loop. `backend` is the
outcome of the `axios.post` to the core (`.error e` when it throws, carrying
the raw error `e`); on success the reply is sent only under
`if (response.data.response)`, and the `catch` sends the fixed apology text. -/
def handleIncomingMessage (download : String → String)
    (contacts : List (String × Option String)) (m : WaMessage)
    (backend : Except String WaBackendData) : WaStep :=
  let contactName := waContactName contacts m.msgFrom
  let parts := waMessageContent download m.content
  let messageContent := parts.1
  let mediaUrl := parts.2.1
  let mediaType := parts.2.2
  let req : WaRequest :=
    { message := messageContent
      channel := "whatsapp"
      channel_user_id := m.msgFrom
      tenant_slug := TENANT_SLUG
      media_url := if mediaUrl = "" then none else some mediaUrl
      media_type := if mediaType = "" then none else some mediaType
      channel_message_id := m.msgId
      user_name := contactName }
  match backend with
  | .ok d =>
      { request := some req
        sends := if d.response = "" then [] else [{ sendTo := m.msgFrom, text := d.response }] }
  | .error _ =>
      { request := some req
        sends := [{ sendTo := m.msgFrom, text := waErrorText }] }

end Whatsapp

namespace Telegram

/-- The adapter's tenant slug (`TENANT_SLUG`, defaulting to `'demo'`). -/
def TENANT_SLUG : String := "demo"

/-- `const userId = msg.from?.id.toString() || 'unknown'`. -/
def tgUserId (fromId : Option Nat) : String :=
  match fromId with
  | some i => toString i
  | none => "unknown"

/-- The body the Telegram adapter posts to `${BACKEND_URL}/api/v1/chat/send`
(text handler posts no media fields; the photo handler adds them). -/
structure TgRequest where
  message : String
  channel : String
  channel_user_id : String
  tenant_slug : String
  media_url : Option String
  media_type : Option String
deriving DecidableEq, Repr

/-- The JSON keys present in a serialized `TgRequest`. -/
def tgPostedKeys (r : TgRequest) : List String :=
  ["message", "channel", "channel_user_id", "tenant_slug"]
    ++ (if r.media_url.isSome then ["media_url"] else [])
    ++ (if r.media_type.isSome then ["media_type"] else [])

/-- `response.data` of the core's reply as the adapter reads it. -/
structure TgBackendData where
  response : String
deriving DecidableEq, Repr

/-- One `bot.sendMessage(chatId, text)` call. -/
structure TgSend where
  chatId : Int
  text : String
deriving DecidableEq, Repr

/-- Result of one handler run: the request posted to the core (if the code
reached the post) and the sends attempted back to the user. -/
structure TgStep where
  request : Option TgRequest
  sends : List TgSend
deriving DecidableEq, Repr

/-- The fixed apology of `handleMessage`'s `catch`. -/
def tgErrorText : String := "Sorry, I encountered an error. Please try again."

/-- The fixed apology of `handlePhotoMessage`'s `catch`. -/
def tgPhotoErrorText : String := "Sorry, I encountered an error processing your image."

/-- `handleMessage(msg)` of the Telegram adapter. `typingOk` is whether
`bot.sendChatAction` succeeded (when it throws, the `catch` runs before any
post); `backend` is the `axios.post` outcome carrying the raw error on
failure; `replyOk` is whether the final `bot.sendMessage` of the reply
succeeded (when it throws, the `catch` additionally attempts the apology).
`sends` lists the attempted `bot.sendMessage` calls in order. -/
def handleMessage (chatId : Int) (fromId : Option Nat) (text : Option String)
    (typingOk : Bool) (backend : Except String TgBackendData) (replyOk : Bool) : TgStep :=
  let message := text.getD ""
  let req : TgRequest :=
    { message := message
      channel := "telegram"
      channel_user_id := tgUserId fromId
      tenant_slug := TENANT_SLUG
      media_url := none
      media_type := none }
  if ¬typingOk then { request := none, sends := [{ chatId := chatId, text := tgErrorText }] }
  else
    match backend with
    | .ok d =>
        if replyOk then { request := some req, sends := [{ chatId := chatId, text := d.response }] }
        else
          { request := some req
            sends := [{ chatId := chatId, text := d.response }, { chatId := chatId, text := tgErrorText }] }
    | .error _ => { request := some req, sends := [{ chatId := chatId, text := tgErrorText }] }

/-- `handlePhotoMessage(msg)`. `photoFileId` is the file id of the largest
photo (`msg.photo?.[msg.photo.length - 1]`, `none` when the array is empty);
`getFile` is the outcome of `bot.getFile`, yielding `file.file_path`. The
media URL is built from the bot token and that path. -/
def handlePhotoMessage (botToken : String) (chatId : Int) (fromId : Option Nat)
    (caption : Option String) (photoFileId : Option String) (typingOk : Bool)
    (getFile : Except String String) (backend : Except String TgBackendData)
    (replyOk : Bool) : TgStep :=
  let message := caption.getD "Image shared"
  if ¬typingOk then { request := none, sends := [{ chatId := chatId, text := tgPhotoErrorText }] }
  else
    match photoFileId with
    | none => { request := none, sends := [] }
    | some _ =>
      match getFile with
      | .error _ => { request := none, sends := [{ chatId := chatId, text := tgPhotoErrorText }] }
      | .ok filePath =>
        let req : TgRequest :=
          { message := message
            channel := "telegram"
            channel_user_id := tgUserId fromId
            tenant_slug := TENANT_SLUG
            media_url := some ("https://api.telegram.org/file/bot" ++ botToken ++ "/" ++ filePath)
            media_type := some "image/jpeg" }
        match backend with
        | .ok d =>
            if replyOk then
              { request := some req, sends := [{ chatId := chatId, text := d.response }] }
            else
              { request := some req
                sends := [{ chatId := chatId, text := d.response },
                          { chatId := chatId, text := tgPhotoErrorText }] }
        | .error _ => { request := some req, sends := [{ chatId := chatId, text := tgPhotoErrorText }] }

/-- The guard of the `bot.on('message')` listener:
`if (msg.text && !msg.text.startsWith('/')) await handleMessage(msg)`. -/
def tgMessageGuard (text : Option String) : Bool :=
  match text with
  | some t => t != "" && !(NodeCrypto.jsStartsWith t "/")
  | none => false

/-- The `bot.on('message')` listener: forwards to `handleMessage` exactly when
the guard passes, else does nothing. -/
def tgOnMessage (chatId : Int) (fromId : Option Nat) (text : Option String)
    (typingOk : Bool) (backend : Except String TgBackendData) (replyOk : Bool) : TgStep :=
  if tgMessageGuard text then handleMessage chatId fromId text typingOk backend replyOk
  else { request := none, sends := [] }

/-- Substring containment on character lists (an unanchored JavaScript regex
over a plain word matches exactly when the word occurs somewhere). -/
def containsSeq (pat : List Char) : List Char → Bool
  | [] => pat.isEmpty
  | c :: cs => pat.isPrefixOf (c :: cs) || containsSeq pat cs

/-- The fixed local reply of `bot.onText(/\/start/)`. -/
def tgWelcomeText : String :=
  "👋 Welcome to ComChat!\n\nI'm an AI assistant powered by GPT. You can:\n• Send me text messages\n• Share images for analysis\n• Ask me questions\n\nJust start typing!"

/-- The fixed local reply of `bot.onText(/\/help/)`. -/
def tgHelpText : String :=
  "ℹ️ ComChat Help\n\n• Just send me any message to chat\n• Share images and I'll analyze them\n• I'm powered by OpenAI GPT models\n\nFor support, contact your administrator."

/-- The two `bot.onText` listeners: each fires when its (unanchored) regex
`/\/start/` resp. `/\/help/` matches the text, replying with a fixed local
string and posting nothing to the core. -/
def tgOnTextReplies (text : String) : List String :=
  (if containsSeq "/start".data text.data then [tgWelcomeText] else [])
    ++ (if containsSeq "/help".data text.data then [tgHelpText] else [])

end Telegram

namespace Web

/-- `response.data` as `chatService.sendMessage` reads it. -/
structure BackendData where
  response : String
  conversationId : String
  messageId : String
  processingTimeMs : Nat
  aiModelUsed : String
deriving DecidableEq, Repr

/-- The `ChatResponse` shape of `frontend/src/services/chatService.ts`. -/
structure ChatResponse where
  response : String
  conversationId : String
  messageId : String
  processingTimeMs : Nat
  aiModelUsed : String
deriving DecidableEq, Repr

/-- The field names of `ChatResponse` — what the outbound message consumed at
the web channel boundary carries. -/
def chatResponseFields : List String :=
  ["response", "conversationId", "messageId", "processingTimeMs", "aiModelUsed"]

/-- The body `ChatService.sendMessage` posts to `/chat/send`. Optional fields
carry `none` where the source passes `undefined`, which axios omits from the
serialized JSON. -/
structure WebRequest where
  message : String
  conversation_id : Option String
  channel : String
  channel_user_id : String
  tenant_slug : String
  media_url : Option String
  media_type : Option String
deriving DecidableEq, Repr

/-- The JSON keys present in a serialized `WebRequest`. -/
def webPostedKeys (r : WebRequest) : List String :=
  ["message"]
    ++ (if r.conversation_id.isSome then ["conversation_id"] else [])
    ++ ["channel", "channel_user_id", "tenant_slug"]
    ++ (if r.media_url.isSome then ["media_url"] else [])
    ++ (if r.media_type.isSome then ["media_type"] else [])

/-- The success path of `ChatService.sendMessage`: repack `response.data`
field by field into a `ChatResponse`. -/
def chatServiceRepack (d : BackendData) : ChatResponse :=
  { response := d.response
    conversationId := d.conversationId
    messageId := d.messageId
    processingTimeMs := d.processingTimeMs
    aiModelUsed := d.aiModelUsed }

/-- A message sender in the `ChatInterface` transcript. -/
inductive Sender
  | user
  | bot
deriving DecidableEq, Repr

/-- One transcript entry of `ChatInterface` (`timestamp` models the `Date`). -/
structure WebMessage where
  id : String
  content : String
  sender : Sender
  timestamp : Nat
  mediaUrl : Option String
  mediaType : Option String
deriving DecidableEq, Repr

/-- A selected file: `name` and MIME `type` from the `File`, `url` the string
`URL.createObjectURL` yields for it (also what the stub `uploadFile`
returns). -/
structure FileRef where
  name : String
  fileType : String
  url : String
deriving DecidableEq, Repr

/-- The component state of `ChatInterface` that `handleSendMessage` reads and
writes. -/
structure ChatState where
  messages : List WebMessage
  inputValue : String
  isLoading : Bool
  conversationId : Option String
  selectedFile : Option FileRef
deriving DecidableEq, Repr

/-- Result of one `handleSendMessage` run: the new state and the request
posted through `chatService.sendMessage` (`none` when the guard returned
early and no request was made). -/
structure WebStep where
  state : ChatState
  request : Option WebRequest
deriving DecidableEq, Repr

/-- `handleSendMessage` of `ChatInterface.tsx`. `now` is `Date.now()`;
`backend` is the outcome of `chatService.sendMessage` (`.error e` when it
throws; the raw error only reaches `toast.error`/`console.error`). The early
return fires on `!inputValue.trim() && !selectedFile`. On success the bot
message is appended, `conversationId` is set only if it was null, and the
selected file is cleared; on failure the transcript keeps the already-appended
user message and the file stays selected. -/
def handleSendMessage (tenantSlug : String) (s : ChatState) (now : Nat)
    (backend : Except String BackendData) : WebStep :=
  if NodeCrypto.jsTrim s.inputValue = "" ∧ s.selectedFile = none then { state := s, request := none }
  else
    let userMessage : WebMessage :=
      { id := toString now
        content := s.inputValue
        sender := .user
        timestamp := now
        mediaUrl := s.selectedFile.map (fun f => f.url)
        mediaType := s.selectedFile.map (fun f => f.fileType) }
    let req : WebRequest :=
      { message := s.inputValue
        conversation_id := s.conversationId
        channel := "web"
        channel_user_id := "web-user-" ++ toString now
        tenant_slug := tenantSlug
        media_url := s.selectedFile.map (fun f => f.url)
        media_type := s.selectedFile.map (fun f => f.fileType) }
    match backend with
    | .ok d =>
        let botMessage : WebMessage :=
          { id := d.messageId
            content := d.response
            sender := .bot
            timestamp := now
            mediaUrl := none
            mediaType := none }
        { state :=
            { messages := s.messages ++ [userMessage, botMessage]
              inputValue := ""
              isLoading := false
              conversationId :=
                match s.conversationId with
                | none => some d.conversationId
                | some c => some c
              selectedFile := none }
          request := some req }
    | .error _ =>
        { state :=
            { messages := s.messages ++ [userMessage]
              inputValue := ""
              isLoading := false
              conversationId := s.conversationId
              selectedFile := s.selectedFile }
          request := some req }

end Web

namespace Spec

/-- The deterministic fallback text named by the specification
(section 4.5 / section 7). -/
def specFallbackText : String := "I'm having trouble responding right now, please try again"

/-- The specification's canonical inbound message fields, under the snake_case
wire names the adapters use on `/api/v1/chat/send` (`text` travels as
`message`, `externalUserId` as `channel_user_id`, `tenantSlug` as
`tenant_slug`). -/
def canonicalInboundKeys : List String :=
  ["tenant_slug", "channel", "channel_user_id", "message",
   "media_url", "media_type", "channel_message_id"]

/-- The specification's canonical outbound message fields. -/
def specOutboundFields : List String :=
  ["conversationId", "text", "backendUsed", "latencyMs"]

/-- A message sender role in the specification's data model. -/
inductive SenderRole
  | user
  | assistant
deriving DecidableEq, Repr

/-- Modelled from the spec: a stored message of the Conversation Store, whose
implementation is not among the repository's source files (only the spec's
section 4.4 describes `append`/`history`). -/
structure StoreMessage where
  sender : SenderRole
  text : String
deriving DecidableEq, Repr

/-- Modelled from the spec: `append(conversationId, message)` of the
Conversation Store (section 4.4) — the message becomes the newest entry of
the conversation's ordered sequence. -/
def storeAppend (conv : List StoreMessage) (m : StoreMessage) : List StoreMessage :=
  conv ++ [m]

/-- Modelled from the spec: `history(conversationId, limit)` of the
Conversation Store (section 4.4) — the `limit` newest messages, ordered, most
recent last. -/
def storeHistory (conv : List StoreMessage) (limit : Nat) : List StoreMessage :=
  conv.drop (conv.length - limit)

/-- The `limit` newest entries of a web transcript, most recent last (the
transcript-side reading used to compare with `storeHistory`). -/
def transcriptTail (msgs : List Web.WebMessage) (limit : Nat) : List Web.WebMessage :=
  msgs.drop (msgs.length - limit)

end Spec

/-- A demo web-chat session just before its first send. -/
def webSession0 : Web.ChatState :=
  { messages := [], inputValue := "hi", isLoading := false,
    conversationId := none, selectedFile := none }

/-- The core's reply to the session's first message. -/
def webReply1 : Web.BackendData :=
  { response := "hello", conversationId := "conv-1", messageId := "m1",
    processingTimeMs := 5, aiModelUsed := "gpt-4o-mini" }

/-- The first send of the demo session, at `Date.now() = 1`. -/
def webStep1 : Web.WebStep := Web.handleSendMessage "demo" webSession0 1 (.ok webReply1)

/-- The second send of the same session (the user typed again), at
`Date.now() = 2`. -/
def webStep2 : Web.WebStep :=
  Web.handleSendMessage "demo" { webStep1.state with inputValue := "and another thing" } 2
    (.ok { response := "sure", conversationId := "conv-1", messageId := "m2",
           processingTimeMs := 6, aiModelUsed := "gpt-4o-mini" })

/-! ## Claims -/

/-- Reading the two newest entries of a sequence that ends in two freshly
appended elements returns exactly those two, in order. -/
theorem drop_len_sub_two_append {α : Type} (l : List α) (u a : α) :
    (l ++ [u, a]).drop ((l ++ [u, a]).length - 2) = [u, a] := by
  have hl : (l ++ [u, a]).length = l.length + 2 := by simp
  rw [hl]
  have h2 : l.length + 2 - 2 = l.length := by omega
  rw [h2]
  exact List.drop_left l [u, a]

/-- C10: invoking send in the web chat interface when the trimmed input text
is empty and no file is selected is a no-op — no request is made to the core
and the message list, conversation id, and loading flag are all unchanged. -/
theorem c10_empty_send_is_noop :
    ∀ tenant (s : Web.ChatState) now (backend : Except String Web.BackendData),
      NodeCrypto.jsTrim s.inputValue = "" → s.selectedFile = none →
      Web.handleSendMessage tenant s now backend = { state := s, request := none } := by
  intro tenant s now backend h1 h2
  unfold Web.handleSendMessage
  rw [if_pos ⟨h1, h2⟩]

/-- C10 witness: a concrete whitespace-only send with no file leaves the
state untouched and posts nothing. -/
theorem c10_witness :
    Web.handleSendMessage "demo" ⟨[], "   ", false, some "conv-1", none⟩ 9 (.error "ignored")
      = { state := ⟨[], "   ", false, some "conv-1", none⟩, request := none } :=
  c10_empty_send_is_noop "demo" ⟨[], "   ", false, some "conv-1", none⟩ 9 (.error "ignored")
    (by decide) rfl

set_option maxRecDepth 8192 in
/-- C9: the Telegram adapter forwards a text message to the core exactly when
it has non-empty text not starting with a slash; `/start` and `/help` are
answered locally with the fixed greeting and help texts and never reach the
core. -/
theorem c9_command_gating :
    (∀ (cid : Int) uid text typingOk (backend : Except String Telegram.TgBackendData) rOk,
      (Telegram.tgOnMessage cid uid text typingOk backend rOk).request.isSome = true →
        ∃ t, text = some t ∧ t ≠ "" ∧ NodeCrypto.jsStartsWith t "/" = false) ∧
    (∀ (cid : Int) uid t (backend : Except String Telegram.TgBackendData) rOk,
      t ≠ "" → NodeCrypto.jsStartsWith t "/" = false →
      (Telegram.tgOnMessage cid uid (some t) true backend rOk).request
        = some { message := t, channel := "telegram",
                 channel_user_id := Telegram.tgUserId uid,
                 tenant_slug := Telegram.TENANT_SLUG,
                 media_url := none, media_type := none }) ∧
    (∀ (cid : Int) uid typingOk (backend : Except String Telegram.TgBackendData) rOk,
      (Telegram.tgOnMessage cid uid (some "/start") typingOk backend rOk).request = none
      ∧ (Telegram.tgOnMessage cid uid (some "/help") typingOk backend rOk).request = none) ∧
    (Telegram.tgOnTextReplies "/start" = [Telegram.tgWelcomeText]
      ∧ Telegram.tgOnTextReplies "/help" = [Telegram.tgHelpText]) := by
  refine ⟨?_, ?_, ?_, by decide, by decide⟩
  · intro cid uid text typingOk backend rOk h
    cases text with
    | none => simp [Telegram.tgOnMessage, Telegram.tgMessageGuard] at h
    | some t =>
      by_cases hg : Telegram.tgMessageGuard (some t) = true
      · have hg' := hg
        simp only [Telegram.tgMessageGuard, Bool.and_eq_true, bne_iff_ne, ne_eq,
          Bool.not_eq_true'] at hg'
        exact ⟨t, rfl, hg'.1, hg'.2⟩
      · simp [Telegram.tgOnMessage, hg] at h
  · intro cid uid t backend rOk h1 h2
    have hg : Telegram.tgMessageGuard (some t) = true := by
      simp [Telegram.tgMessageGuard, h1, h2]
    cases backend with
    | ok d =>
      cases rOk <;> simp [Telegram.tgOnMessage, hg, Telegram.handleMessage]
    | error e => simp [Telegram.tgOnMessage, hg, Telegram.handleMessage]
  · intro cid uid typingOk backend rOk
    have h1 : NodeCrypto.jsStartsWith "/start" "/" = true := by decide
    have h2 : NodeCrypto.jsStartsWith "/help" "/" = true := by decide
    constructor <;> simp [Telegram.tgOnMessage, Telegram.tgMessageGuard, h1, h2]

/-- C9 witness: a concrete plain text message is forwarded to the core with
the canonical Telegram payload. -/
theorem c9_witness :
    (Telegram.tgOnMessage 1 (some 42) (some "hello") true (.ok ⟨"hi"⟩) true).request
      = some { message := "hello", channel := "telegram",
               channel_user_id := Telegram.tgUserId (some 42),
               tenant_slug := Telegram.TENANT_SLUG,
               media_url := none, media_type := none } :=
  c9_command_gating.2.1 1 (some 42) "hello" (.ok ⟨"hi"⟩) true (by decide) (by decide)

/-- C3 counterexample: a WhatsApp text message whose backend call succeeds
with the empty reply string is processed without an exception, yet the
adapter delivers zero reply messages, not exactly one. -/
theorem c3_counterexample :
    (Whatsapp.handleIncomingMessage (fun _ => "") []
        ⟨"15551234567", "wamid.1", .text "hi"⟩ (.ok ⟨""⟩)).sends.length = 0
    ∧ (0 : Nat) ≠ 1 := by decide

/-- C3 amended: for every inbound WhatsApp message processed without an
exception the adapter delivers exactly one reply when the core's response
text is non-empty, and none when it is the empty string (the falsy guard
`if (response.data.response)` skips the send). -/
theorem c3_amended_reply_iff_nonempty :
    ∀ dl contacts (m : Whatsapp.WaMessage) (d : Whatsapp.WaBackendData),
      (Whatsapp.handleIncomingMessage dl contacts m (.ok d)).sends
        = if d.response = "" then [] else [{ sendTo := m.msgFrom, text := d.response }] := by
  intro dl contacts m d
  simp [Whatsapp.handleIncomingMessage]

/-- C1: whenever the backend call of a Telegram or WhatsApp handler fails, the
adapter sends the user its fixed polite fallback text; on every execution path
of `handleMessage`, `handlePhotoMessage` and `handleIncomingMessage` every
text the adapter sends is either the core's reply text or a fixed fallback
constant — never the raw backend error. -/
theorem c1_no_raw_backend_errors :
    (∀ (cid : Int) uid txt (e : String) rOk,
      (Telegram.handleMessage cid uid txt true (.error e) rOk).sends
        = [{ chatId := cid, text := Telegram.tgErrorText }]) ∧
    (∀ tok (cid : Int) uid cap pid fp (e : String) rOk,
      (Telegram.handlePhotoMessage tok cid uid cap (some pid) true (.ok fp) (.error e) rOk).sends
        = [{ chatId := cid, text := Telegram.tgPhotoErrorText }]) ∧
    (∀ dl contacts (m : Whatsapp.WaMessage) (e : String),
      (Whatsapp.handleIncomingMessage dl contacts m (.error e)).sends
        = [{ sendTo := m.msgFrom, text := Whatsapp.waErrorText }]) ∧
    (∀ (cid : Int) uid txt typingOk (backend : Except String Telegram.TgBackendData) rOk,
      ∀ s ∈ (Telegram.handleMessage cid uid txt typingOk backend rOk).sends,
        s.text = Telegram.tgErrorText ∨ ∃ d, backend = .ok d ∧ s.text = d.response) ∧
    (∀ tok (cid : Int) uid cap pid typingOk gf (backend : Except String Telegram.TgBackendData) rOk,
      ∀ s ∈ (Telegram.handlePhotoMessage tok cid uid cap pid typingOk gf backend rOk).sends,
        s.text = Telegram.tgPhotoErrorText ∨ ∃ d, backend = .ok d ∧ s.text = d.response) ∧
    (∀ dl contacts (m : Whatsapp.WaMessage) (backend : Except String Whatsapp.WaBackendData),
      ∀ s ∈ (Whatsapp.handleIncomingMessage dl contacts m backend).sends,
        s.text = Whatsapp.waErrorText ∨ ∃ d, backend = .ok d ∧ s.text = d.response) := by
  refine ⟨?_, ?_, ?_, ?_, ?_, ?_⟩
  · intro cid uid txt e rOk
    simp [Telegram.handleMessage]
  · intro tok cid uid cap pid fp e rOk
    simp [Telegram.handlePhotoMessage]
  · intro dl contacts m e
    simp [Whatsapp.handleIncomingMessage]
  · intro cid uid txt typingOk backend rOk s hs
    cases typingOk with
    | false =>
      simp [Telegram.handleMessage] at hs
      subst hs; exact Or.inl rfl
    | true =>
      cases backend with
      | error e =>
        simp [Telegram.handleMessage] at hs
        subst hs; exact Or.inl rfl
      | ok d =>
        cases rOk with
        | true =>
          simp [Telegram.handleMessage] at hs
          subst hs; exact Or.inr ⟨d, rfl, rfl⟩
        | false =>
          simp [Telegram.handleMessage] at hs
          rcases hs with hs | hs <;> subst hs
          · exact Or.inr ⟨d, rfl, rfl⟩
          · exact Or.inl rfl
  · intro tok cid uid cap pid typingOk gf backend rOk s hs
    cases typingOk with
    | false =>
      simp [Telegram.handlePhotoMessage] at hs
      subst hs; exact Or.inl rfl
    | true =>
      cases pid with
      | none => simp [Telegram.handlePhotoMessage] at hs
      | some p =>
        cases gf with
        | error e =>
          simp [Telegram.handlePhotoMessage] at hs
          subst hs; exact Or.inl rfl
        | ok fp =>
          cases backend with
          | error e =>
            simp [Telegram.handlePhotoMessage] at hs
            subst hs; exact Or.inl rfl
          | ok d =>
            cases rOk with
            | true =>
              simp [Telegram.handlePhotoMessage] at hs
              subst hs; exact Or.inr ⟨d, rfl, rfl⟩
            | false =>
              simp [Telegram.handlePhotoMessage] at hs
              rcases hs with hs | hs <;> subst hs
              · exact Or.inr ⟨d, rfl, rfl⟩
              · exact Or.inl rfl
  · intro dl contacts m backend s hs
    cases backend with
    | error e =>
      simp [Whatsapp.handleIncomingMessage] at hs
      subst hs; exact Or.inl rfl
    | ok d =>
      simp [Whatsapp.handleIncomingMessage] at hs
      rcases hs with ⟨-, hs⟩
      subst hs; exact Or.inr ⟨d, rfl, rfl⟩

/-- C1 witness: a concrete failing Telegram backend call yields the polite
fallback send, whose text is the fallback constant. -/
theorem c1_witness :
    ({ chatId := (5 : Int), text := Telegram.tgErrorText } : Telegram.TgSend).text
        = Telegram.tgErrorText
      ∨ ∃ d, (Except.error "connect ECONNREFUSED" : Except String Telegram.TgBackendData)
            = .ok d
          ∧ ({ chatId := (5 : Int), text := Telegram.tgErrorText } : Telegram.TgSend).text
              = d.response :=
  c1_no_raw_backend_errors.2.2.2.1 5 none (some "hi") true (.error "connect ECONNREFUSED") true
    { chatId := 5, text := Telegram.tgErrorText } (by decide)

/-- C2 counterexample: on a concrete failing request the Telegram adapter
delivers the fallback "Sorry, I encountered an error. Please try again.",
which is not the spec's fallback text, and the Telegram photo handler uses
yet another string — so the delivered fallback is neither the claimed text
nor the same string on every channel. -/
theorem c2_counterexample :
    (Telegram.handleMessage 7 (some 42) (some "hello") true (.error "connect ECONNREFUSED") true).sends
      = [{ chatId := 7, text := "Sorry, I encountered an error. Please try again." }]
    ∧ Telegram.tgErrorText ≠ Spec.specFallbackText
    ∧ Whatsapp.waErrorText ≠ Spec.specFallbackText
    ∧ Telegram.tgPhotoErrorText ≠ Spec.specFallbackText := by decide

/-- C2 amended: the fallback delivered when the backend call fails is fixed
per handler — "Sorry, I encountered an error. Please try again." for Telegram
text messages and WhatsApp, "Sorry, I encountered an error processing your
image." for Telegram photos — and none of them is the spec's
"I'm having trouble responding right now, please try again". -/
theorem c2_amended_fixed_per_handler_fallbacks :
    (∀ (cid : Int) uid txt (e : String) rOk,
      (Telegram.handleMessage cid uid txt true (.error e) rOk).sends
        = [{ chatId := cid, text := Telegram.tgErrorText }]) ∧
    (∀ dl contacts (m : Whatsapp.WaMessage) (e : String),
      (Whatsapp.handleIncomingMessage dl contacts m (.error e)).sends
        = [{ sendTo := m.msgFrom, text := Whatsapp.waErrorText }]) ∧
    (∀ tok (cid : Int) uid cap pid fp (e : String) rOk,
      (Telegram.handlePhotoMessage tok cid uid cap (some pid) true (.ok fp) (.error e) rOk).sends
        = [{ chatId := cid, text := Telegram.tgPhotoErrorText }]) ∧
    Telegram.tgErrorText = Whatsapp.waErrorText ∧
    Telegram.tgPhotoErrorText ≠ Telegram.tgErrorText ∧
    Telegram.tgErrorText ≠ Spec.specFallbackText ∧
    Telegram.tgPhotoErrorText ≠ Spec.specFallbackText := by
  refine ⟨?_, ?_, ?_, rfl, by decide, by decide, by decide⟩
  · intro cid uid txt e rOk
    simp [Telegram.handleMessage]
  · intro dl contacts m e
    simp [Whatsapp.handleIncomingMessage]
  · intro tok cid uid cap pid fp e rOk
    simp [Telegram.handlePhotoMessage]

/-- C4 counterexample: a concrete WhatsApp text message is posted to the core
with the keys message, channel, channel_user_id, tenant_slug,
channel_message_id and user_name — and user_name is not among the canonical
inbound message fields. -/
theorem c4_counterexample :
    ((Whatsapp.handleIncomingMessage (fun _ => "") []
          ⟨"15551234567", "wamid.1", .text "hi"⟩ (.ok ⟨"ok"⟩)).request.map Whatsapp.waPostedKeys)
      = some ["message", "channel", "channel_user_id", "tenant_slug",
              "channel_message_id", "user_name"]
    ∧ "user_name" ∉ Spec.canonicalInboundKeys := by decide

/-- C4 amended: the Telegram adapter posts only canonical inbound fields; the
WhatsApp adapter posts canonical fields plus, always, the extra `user_name`;
the web client posts canonical fields plus `conversation_id`, present exactly
when it is continuing an existing conversation. -/
theorem c4_amended_posted_keys :
    (∀ r : Telegram.TgRequest, ∀ k ∈ Telegram.tgPostedKeys r, k ∈ Spec.canonicalInboundKeys) ∧
    (∀ r : Whatsapp.WaRequest,
      (∀ k ∈ Whatsapp.waPostedKeys r, k ∈ Spec.canonicalInboundKeys ++ ["user_name"])
      ∧ "user_name" ∈ Whatsapp.waPostedKeys r) ∧
    (∀ r : Web.WebRequest,
      (∀ k ∈ Web.webPostedKeys r, k ∈ Spec.canonicalInboundKeys ++ ["conversation_id"])
      ∧ ("conversation_id" ∈ Web.webPostedKeys r ↔ r.conversation_id.isSome = true)) := by
  refine ⟨?_, ?_, ?_⟩
  · rintro ⟨ms, ch, cu, ts, mu, mt⟩ k hk
    cases mu <;> cases mt <;>
      simp_all [Telegram.tgPostedKeys, Spec.canonicalInboundKeys] <;> tauto
  · rintro ⟨ms, ch, cu, ts, mu, mt, cm, un⟩
    constructor
    · intro k hk
      cases mu <;> cases mt <;>
        simp_all [Whatsapp.waPostedKeys, Spec.canonicalInboundKeys] <;> tauto
    · cases mu <;> cases mt <;> simp [Whatsapp.waPostedKeys]
  · rintro ⟨ms, ci, ch, cu, ts, mu, mt⟩
    constructor
    · intro k hk
      cases ci <;> cases mu <;> cases mt <;>
        simp_all [Web.webPostedKeys, Spec.canonicalInboundKeys] <;> tauto
    · cases ci <;> cases mu <;> cases mt <;> simp [Web.webPostedKeys]

/-- C4 witness: the key "message" posted by a concrete Telegram request is a
canonical inbound field. -/
theorem c4_witness : "message" ∈ Spec.canonicalInboundKeys :=
  c4_amended_posted_keys.1 ⟨"hi", "telegram", "42", "demo", none, none⟩ "message" (by decide)

/-- C5 counterexample: the outbound message consumed at the web channel
boundary does not consist of the claimed fields — it has no "text" field
(the reply travels as "response") and it carries a "messageId" field the
claimed set lacks. -/
theorem c5_counterexample :
    ("text" ∈ Spec.specOutboundFields ∧ "text" ∉ Web.chatResponseFields)
    ∧ ("messageId" ∈ Web.chatResponseFields ∧ "messageId" ∉ Spec.specOutboundFields) := by
  decide

/-- C5 amended: the outbound message consumed at the channel boundary
consists of exactly the fields response, conversationId, messageId,
processingTimeMs and aiModelUsed — the reply text under `response`, the
backend identifier under `aiModelUsed` and the latency under
`processingTimeMs` — copied field by field from the core's payload by
`ChatService.sendMessage`. -/
theorem c5_amended_outbound_fields :
    Web.chatResponseFields
        = ["response", "conversationId", "messageId", "processingTimeMs", "aiModelUsed"]
    ∧ (∀ d : Web.BackendData,
        (Web.chatServiceRepack d).response = d.response
        ∧ (Web.chatServiceRepack d).conversationId = d.conversationId
        ∧ (Web.chatServiceRepack d).messageId = d.messageId
        ∧ (Web.chatServiceRepack d).processingTimeMs = d.processingTimeMs
        ∧ (Web.chatServiceRepack d).aiModelUsed = d.aiModelUsed) :=
  ⟨rfl, fun _ => ⟨rfl, rfl, rfl, rfl, rfl⟩⟩

/-- C6 counterexample: two messages of one web chat session carry different
external user ids — the client builds `'web-user-' + Date.now()` afresh on
every send — so the web channel does not present a fixed external user id
for the core to resolve. -/
theorem c6_counterexample :
    webStep1.request.map (fun r => r.channel_user_id) = some "web-user-1"
    ∧ webStep2.request.map (fun r => r.channel_user_id) = some "web-user-2"
    ∧ ("web-user-1" : String) ≠ "web-user-2" := by decide

/-- C6 amended: the web client sends a fresh external user id
(`'web-user-' + Date.now()`) with every message; conversation stability is
achieved instead by echoing the stored conversation id — once
`conversationId` is set it never changes and every later request carries it,
and a successful first send stores the id from the core's response. -/
theorem c6_amended_conversation_continuity :
    (∀ tenant (s : Web.ChatState) now (backend : Except String Web.BackendData) c,
      s.conversationId = some c →
      (Web.handleSendMessage tenant s now backend).state.conversationId = some c
      ∧ ∀ r, (Web.handleSendMessage tenant s now backend).request = some r →
          r.conversation_id = some c) ∧
    (∀ tenant (s : Web.ChatState) now (d : Web.BackendData),
      s.conversationId = none →
      ¬(NodeCrypto.jsTrim s.inputValue = "" ∧ s.selectedFile = none) →
      (Web.handleSendMessage tenant s now (.ok d)).state.conversationId
        = some d.conversationId) ∧
    (∀ tenant (s : Web.ChatState) now (backend : Except String Web.BackendData) r,
      (Web.handleSendMessage tenant s now backend).request = some r →
      r.channel_user_id = "web-user-" ++ toString now) := by
  refine ⟨?_, ?_, ?_⟩
  · intro tenant s now backend c hc
    by_cases hg : NodeCrypto.jsTrim s.inputValue = "" ∧ s.selectedFile = none
    · simp [Web.handleSendMessage, hg, hc]
    · cases backend <;> simp [Web.handleSendMessage, hg, hc]
  · intro tenant s now d hn hg
    simp [Web.handleSendMessage, hg, hn]
  · intro tenant s now backend r hr
    by_cases hg : NodeCrypto.jsTrim s.inputValue = "" ∧ s.selectedFile = none
    · simp [Web.handleSendMessage, hg] at hr
    · cases backend <;> simp [Web.handleSendMessage, hg] at hr <;>
        simp [← hr]

/-- C6 witness: the demo session's first successful send stores the
conversation id from the core's response. -/
theorem c6_witness :
    (Web.handleSendMessage "demo" webSession0 1 (.ok webReply1)).state.conversationId
      = some webReply1.conversationId :=
  c6_amended_conversation_continuity.2.1 "demo" webSession0 1 webReply1 rfl (by decide)

/-- C7: appending a user message then an assistant message and reading the
last two entries of the history returns them in insertion order with the
correct sender roles — both for the spec's Conversation Store
(`history(conversationId, limit=2)`, modelled from the spec since the store
is not among the repository's sources) and for the web transcript, where a
successful send appends the user message before the bot message and leaves
all earlier messages in place. -/
theorem c7_roundtrip_append_history :
    (∀ (conv : List Spec.StoreMessage) (u a : Spec.StoreMessage),
      u.sender = .user → a.sender = .assistant →
      Spec.storeHistory (Spec.storeAppend (Spec.storeAppend conv u) a) 2 = [u, a]) ∧
    (∀ tenant (s : Web.ChatState) now (d : Web.BackendData),
      ¬(NodeCrypto.jsTrim s.inputValue = "" ∧ s.selectedFile = none) →
      ∃ um bm,
        (Web.handleSendMessage tenant s now (.ok d)).state.messages = s.messages ++ [um, bm]
        ∧ um.sender = .user ∧ bm.sender = .bot
        ∧ Spec.transcriptTail (Web.handleSendMessage tenant s now (.ok d)).state.messages 2
            = [um, bm]) := by
  constructor
  · intro conv u a _ _
    show ((conv ++ [u]) ++ [a]).drop (((conv ++ [u]) ++ [a]).length - 2) = [u, a]
    rw [List.append_assoc]
    exact drop_len_sub_two_append conv u a
  · intro tenant s now d hg
    refine ⟨{ id := toString now, content := s.inputValue, sender := .user, timestamp := now,
              mediaUrl := s.selectedFile.map (fun f => f.url),
              mediaType := s.selectedFile.map (fun f => f.fileType) },
            { id := d.messageId, content := d.response, sender := .bot, timestamp := now,
              mediaUrl := none, mediaType := none }, ?_, rfl, rfl, ?_⟩
    · simp [Web.handleSendMessage, hg]
    · show Spec.transcriptTail (Web.handleSendMessage tenant s now (.ok d)).state.messages 2 = _
      have hm : (Web.handleSendMessage tenant s now (.ok d)).state.messages
          = s.messages ++
            [{ id := toString now, content := s.inputValue, sender := .user, timestamp := now,
               mediaUrl := s.selectedFile.map (fun f => f.url),
               mediaType := s.selectedFile.map (fun f => f.fileType) },
             { id := d.messageId, content := d.response, sender := .bot, timestamp := now,
               mediaUrl := none, mediaType := none }] := by
        simp [Web.handleSendMessage, hg]
      rw [Spec.transcriptTail, hm]
      exact drop_len_sub_two_append _ _ _

/-- C7 witness: a concrete successful send appends the user and bot messages
in order and in particular the last two transcript entries are that pair, and
a concrete store round-trip returns the appended pair. -/
theorem c7_witness :
    (Spec.storeHistory
        (Spec.storeAppend (Spec.storeAppend [] { sender := .user, text := "Hello" })
          { sender := .assistant, text := "Hi!" }) 2
      = [{ sender := .user, text := "Hello" }, { sender := .assistant, text := "Hi!" }])
    ∧ ∃ um bm,
        (Web.handleSendMessage "demo" webSession0 1 (.ok webReply1)).state.messages
            = webSession0.messages ++ [um, bm]
        ∧ um.sender = .user ∧ bm.sender = .bot
        ∧ Spec.transcriptTail
            (Web.handleSendMessage "demo" webSession0 1 (.ok webReply1)).state.messages 2
          = [um, bm] :=
  ⟨c7_roundtrip_append_history.1 [] { sender := .user, text := "Hello" }
      { sender := .assistant, text := "Hi!" } rfl rfl,
   c7_roundtrip_append_history.2 "demo" webSession0 1 webReply1 (by decide)⟩

/-- With a non-empty secret, `verifyWebhookSignature` returns `false` on a
missing/empty header, compares the two hex-decoded buffers when their byte
lengths agree, and throws (the `timingSafeEqual` length mismatch) otherwise. -/
theorem whatsappVerify_eq (s body : String) (sig : Option String) (hs : s ≠ "") :
    Whatsapp.verifyWebhookSignature s body sig =
      if sig.getD "" = "" then .ok false
      else if (NodeCrypto.bufferFromHex (NodeCrypto.hmacSha256Hex s body)).length
          = (NodeCrypto.bufferFromHex
              (NodeCrypto.jsReplaceFirst (sig.getD "") "sha256=")).length
        then .ok ((NodeCrypto.bufferFromHex (NodeCrypto.hmacSha256Hex s body))
            == (NodeCrypto.bufferFromHex
                (NodeCrypto.jsReplaceFirst (sig.getD "") "sha256=")))
        else .error () := by
  unfold Whatsapp.verifyWebhookSignature NodeCrypto.timingSafeEqual
  simp [hs]

set_option maxRecDepth 200000 in
/-- C8 counterexample: with the secret configured, a request signed
`sha256=ab` — whose stripped header is certainly not the hex HMAC of the body
— is answered 500, not 401: the hex-decoded header has 1 byte, the decoded
digest 32, so `crypto.timingSafeEqual` throws and the handler's catch returns
500. -/
theorem c8_counterexample :
    Whatsapp.webhookPost (some "topsecret") "[]" (some "sha256=ab")
        = .serverError
    ∧ Whatsapp.WebhookGate.serverError ≠ .unauthorized
    ∧ NodeCrypto.jsReplaceFirst "sha256=ab" "sha256="
        ≠ NodeCrypto.hmacSha256Hex "topsecret" "[]" := by decide

/-- C8 amended: with no configured secret every body passes the gate with no
check; with a secret, the handler answers 401 exactly when the header is
missing/empty or the hex-decoded header matches the decoded HMAC-SHA256 of
the JSON body in byte length but differs in content (so hex case is ignored),
and it answers 500 — `timingSafeEqual` throws — exactly when a non-empty
header's decoded length differs from the digest's 32 bytes. -/
theorem c8_amended_gate :
    (∀ body sig, Whatsapp.webhookPost none body sig = .accepted) ∧
    (∀ s body (sig : Option String), s ≠ "" →
      ((Whatsapp.webhookPost (some s) body sig = .unauthorized ↔
        (sig.getD "" = "" ∨
          ((NodeCrypto.bufferFromHex (NodeCrypto.hmacSha256Hex s body)).length
              = (NodeCrypto.bufferFromHex
                  (NodeCrypto.jsReplaceFirst (sig.getD "") "sha256=")).length
            ∧ NodeCrypto.bufferFromHex (NodeCrypto.hmacSha256Hex s body)
              ≠ NodeCrypto.bufferFromHex
                  (NodeCrypto.jsReplaceFirst (sig.getD "") "sha256="))))
      ∧ (Whatsapp.webhookPost (some s) body sig = .serverError ↔
          (sig.getD "" ≠ ""
            ∧ (NodeCrypto.bufferFromHex (NodeCrypto.hmacSha256Hex s body)).length
                ≠ (NodeCrypto.bufferFromHex
                    (NodeCrypto.jsReplaceFirst (sig.getD "") "sha256=")).length)))) := by
  constructor
  · intro body sig
    simp [Whatsapp.webhookPost]
  · intro s body sig hs
    have hv := whatsappVerify_eq s body sig hs
    unfold Whatsapp.webhookPost
    rw [show ((some s).getD "") = s from rfl, if_neg hs, hv]
    set e := NodeCrypto.bufferFromHex (NodeCrypto.hmacSha256Hex s body) with he
    set r := NodeCrypto.bufferFromHex (NodeCrypto.jsReplaceFirst (sig.getD "") "sha256=")
      with hr
    by_cases h0 : sig.getD "" = ""
    · simp [h0]
    · rw [if_neg h0]
      by_cases hlen : e.length = r.length
      · rw [if_pos hlen]
        cases heq : (e == r) with
        | true =>
          have heq' : e = r := by simpa [beq_iff_eq] using heq
          simp [h0, hlen, heq']
        | false =>
          have heq' : e ≠ r := by simpa [beq_iff_eq] using heq
          simp [h0, hlen, heq']
      · rw [if_neg hlen]
        simp [h0, hlen]

/-- C8 witness: with secret "k" and no signature header at all, the gate's
characterizations hold at this concrete input (and in particular the missing
header yields the 401 branch). -/
theorem c8_witness :
    ((Whatsapp.webhookPost (some "k") "[]" none = .unauthorized ↔
      ((none : Option String).getD "" = "" ∨
        ((NodeCrypto.bufferFromHex (NodeCrypto.hmacSha256Hex "k" "[]")).length
            = (NodeCrypto.bufferFromHex
                (NodeCrypto.jsReplaceFirst ((none : Option String).getD "") "sha256=")).length
          ∧ NodeCrypto.bufferFromHex (NodeCrypto.hmacSha256Hex "k" "[]")
            ≠ NodeCrypto.bufferFromHex
                (NodeCrypto.jsReplaceFirst ((none : Option String).getD "") "sha256="))))
    ∧ (Whatsapp.webhookPost (some "k") "[]" none = .serverError ↔
        ((none : Option String).getD "" ≠ ""
          ∧ (NodeCrypto.bufferFromHex (NodeCrypto.hmacSha256Hex "k" "[]")).length
              ≠ (NodeCrypto.bufferFromHex
                  (NodeCrypto.jsReplaceFirst ((none : Option String).getD "") "sha256=")).length))) :=
  c8_amended_gate.2 "k" "[]" none (by decide)

end ComChat
